import Mathlib

/-!
Formal model of the RAG text-to-SQL pipeline of the hanwha-eagles-chatbot
repository (`rag/rag_text_to_sql.py`).  The Python code is shallowly
embedded: strings are Lean `String`s, regular-expression extraction is
modelled by explicit character-list scanners that follow the concrete
patterns used in the source, database rows are association lists of
column values, and the Supabase remote store is modelled as an in-memory
list of rows to which the accumulated query filters are applied.  Remote
calls are tracked as an explicit trace so that claims about "zero remote
calls" can be stated.  The wall clock (`datetime.now()`) is an explicit
`Date` parameter.
-/

namespace HanwhaRag

/-! ## Basic character and string utilities -/

/-- Lowercase an ASCII character, as Python `str.lower` does on ASCII
(Korean characters are unaffected in both systems). -/
def lcChar (c : Char) : Char := c.toLower

/-- Uppercase an ASCII character, as Python `str.upper` does on ASCII. -/
def ucChar (c : Char) : Char := c.toUpper

/-- Model of Python `s.lower()`. -/
def lowerStr (s : String) : String := String.mk (s.data.map lcChar)

/-- Model of Python `s.upper()`. -/
def upperStr (s : String) : String := String.mk (s.data.map ucChar)

/-- `listPrefixB pat cs` is true when `pat` is a prefix of `cs`. -/
def listPrefixB : List Char → List Char → Bool
  | [], _ => true
  | _ :: _, [] => false
  | a :: as, b :: bs => a == b && listPrefixB as bs

/-- `listInfixB pat cs` is true when `pat` occurs contiguously in `cs`;
this models the Python `pat in s` substring test. -/
def listInfixB (pat : List Char) : List Char → Bool
  | [] => listPrefixB pat []
  | c :: cs => listPrefixB pat (c :: cs) || listInfixB pat cs

/-- Model of the Python substring test `pat in s`. -/
def containsSub (s pat : String) : Bool := listInfixB pat.data s.data

/-- Model of Python `s.startswith(pat)`. -/
def strStartsWith (s pat : String) : Bool := listPrefixB pat.data s.data

/-- `anyKeyword s kws` models `any(kw in s for kw in kws)`. -/
def anyKeyword (s : String) (kws : List String) : Bool :=
  kws.any (fun kw => containsSub s kw)

/-- `countKeywords s kws` models `sum(1 for kw in kws if kw in s)`. -/
def countKeywords (s : String) (kws : List String) : Nat :=
  (kws.filter (fun kw => containsSub s kw)).length

/-- Lexicographic comparison of character lists by code point, the
ordering Python uses to compare strings. -/
def charListLe : List Char → List Char → Bool
  | [], _ => true
  | _ :: _, [] => false
  | a :: as, b :: bs =>
    if a.toNat < b.toNat then true
    else if b.toNat < a.toNat then false
    else charListLe as bs

/-- Model of Python `a <= b` on strings. -/
def strLe (a b : String) : Bool := charListLe a.data b.data

/-- Model of Python `a >= b` on strings. -/
def strGe (a b : String) : Bool := strLe b a

/-- True for the characters matched by the regex class `\s`. -/
def isWsChar (c : Char) : Bool := c.isWhitespace

/-- True for the characters matched by the regex class `\w` (`re.UNICODE`
is the Python default, so non-ASCII letters count as word characters;
we approximate the Unicode classes by treating every code point at or
above 128 as a word character, which agrees on the inputs of interest). -/
def isWordChar (c : Char) : Bool := c.isAlphanum || c == '_' || decide (128 ≤ c.toNat)

/-- The apostrophe character (code point 39), one of the two quote
characters accepted by the `['\x22]`-style classes in the source regexes. -/
def aposChar : Char := Char.ofNat 39

/-- True for the two quote characters the source regexes accept around
SQL literals. -/
def isQuoteChar (c : Char) : Bool := c == aposChar || c == '"'

/-- Model of Python `str.strip()`: drop leading and trailing whitespace. -/
def stripStr (s : String) : String :=
  String.mk (((s.data.dropWhile isWsChar).reverse.dropWhile isWsChar).reverse)

/-! ## Scanner combinators for the source's regular expressions

Each matcher takes the remaining character list and returns the captured
data together with the characters following the match, or `none` when
the pattern does not match at this position.  `scanFirst` models
`re.search` (try every start position left to right), and `scanAll`
models `re.findall` (collect non-overlapping matches left to right). -/

/-- Match a literal string case-insensitively (the source compiles its
patterns with `re.IGNORECASE`). -/
def litCI (pat : List Char) (cs : List Char) : Option (List Char) :=
  match pat, cs with
  | [], rest => some rest
  | _ :: _, [] => none
  | p :: ps, c :: rest => if lcChar p == lcChar c then litCI ps rest else none

/-- Match `\s+`: one or more whitespace characters. -/
def ws1 : List Char → Option (List Char)
  | c :: rest => if isWsChar c then some (rest.dropWhile isWsChar) else none
  | [] => none

/-- Match `\s*`: zero or more whitespace characters. -/
def ws0 (cs : List Char) : List Char := cs.dropWhile isWsChar

/-- Match `\w+` and capture it. -/
def word1 (cs : List Char) : Option (String × List Char) :=
  let w := cs.takeWhile isWordChar
  if w.isEmpty then none else some (String.mk w, cs.dropWhile isWordChar)

/-- Match `\d+` and capture it. -/
def digits1 (cs : List Char) : Option (String × List Char) :=
  let w := cs.takeWhile Char.isDigit
  if w.isEmpty then none else some (String.mk w, cs.dropWhile Char.isDigit)

/-- Match exactly `n` digits (`\d{n}`) and capture them. -/
def digitsExact : Nat → List Char → Option (String × List Char)
  | 0, cs => some ("", cs)
  | n + 1, c :: cs =>
    if c.isDigit then
      match digitsExact n cs with
      | some (s, rest) => some (String.mk (c :: s.data), rest)
      | none => none
    else none
  | _ + 1, [] => none

/-- Match `\d{1,2}` greedily, trying two digits first and falling back to
one, continuing with `next` after the capture (this reproduces the
backtracking of the Python engine when the group is followed by more
pattern). -/
def digits12Then (next : String → List Char → Option α) :
    List Char → Option α
  | c1 :: c2 :: cs =>
    if c1.isDigit then
      if c2.isDigit then
        match next (String.mk [c1, c2]) cs with
        | some r => some r
        | none => next (String.mk [c1]) (c2 :: cs)
      else next (String.mk [c1]) (c2 :: cs)
    else none
  | [c1] => if c1.isDigit then next (String.mk [c1]) [] else none
  | [] => none

/-- Match `[^'\x22]+` (one or more non-quote characters) and capture it. -/
def nonQuote1 (cs : List Char) : Option (String × List Char) :=
  let w := cs.takeWhile (fun c => !isQuoteChar c)
  if w.isEmpty then none else some (String.mk w, cs.dropWhile (fun c => !isQuoteChar c))

/-- Expect one quote character (`['\x22]`). -/
def quote1 : List Char → Option (List Char)
  | c :: rest => if isQuoteChar c then some rest else none
  | [] => none

/-- Try a matcher at every start position, left to right (`re.search`). -/
def scanFirst (m : List Char → Option α) : List Char → Option α
  | [] => m []
  | c :: cs =>
    match m (c :: cs) with
    | some r => some r
    | none => scanFirst m cs

/-- Collect all non-overlapping matches left to right (`re.findall`).
`fuel` bounds the recursion; passing the input length is always enough
because every successful match of the patterns below consumes at least
one character. -/
def scanAll (m : List Char → Option (α × List Char)) : Nat → List Char → List α
  | 0, _ => []
  | _ + 1, [] => []
  | fuel + 1, c :: cs =>
    match m (c :: cs) with
    | some (a, rest) => a :: scanAll m fuel rest
    | none => scanAll m fuel cs

/-- First index (in characters) at which `pat` occurs case-insensitively
in `cs`; models `s.upper().find(PAT)` for an upper-case `pat`. -/
def idxOfSubCI (pat : List Char) : List Char → Option Nat
  | [] => if pat.isEmpty then some 0 else none
  | c :: cs =>
    if (litCI pat (c :: cs)).isSome then some 0
    else match idxOfSubCI pat cs with
      | some n => some (n + 1)
      | none => none

/-! ## Dates

`datetime.now()` is an explicit `Date` parameter; `timedelta(days = 1)`
is `nextDay`, formatting follows `strftime` with zero padding. -/

/-- A calendar date. -/
structure Date where
  y : Nat
  m : Nat
  d : Nat
deriving DecidableEq

/-- Gregorian leap-year rule. -/
def isLeap (y : Nat) : Bool := (y % 4 == 0 && y % 100 != 0) || y % 400 == 0

/-- Days in a month of the Gregorian calendar. -/
def daysInMonth (y m : Nat) : Nat :=
  if m == 2 then (if isLeap y then 29 else 28)
  else if m == 4 || m == 6 || m == 9 || m == 11 then 30
  else 31

/-- Model of `now + timedelta(days=1)`. -/
def nextDay (dt : Date) : Date :=
  if dt.d < daysInMonth dt.y dt.m then ⟨dt.y, dt.m, dt.d + 1⟩
  else if dt.m < 12 then ⟨dt.y, dt.m + 1, 1⟩
  else ⟨dt.y + 1, 1, 1⟩

/-- Model of `now - timedelta(days=1)`. -/
def prevDay (dt : Date) : Date :=
  if 1 < dt.d then ⟨dt.y, dt.m, dt.d - 1⟩
  else if 1 < dt.m then ⟨dt.y, dt.m - 1, daysInMonth dt.y (dt.m - 1)⟩
  else ⟨dt.y - 1, 12, 31⟩

/-- Model of `now + timedelta(days=n)`. -/
def addDays : Nat → Date → Date
  | 0, dt => dt
  | n + 1, dt => addDays n (nextDay dt)

/-- The decimal digit character for `n < 10`. -/
def digitChar10 (n : Nat) : Char := Char.ofNat (48 + n % 10)

/-- Two-digit zero-padded rendering (`%m`, `%d` of `strftime`). -/
def pad2 (n : Nat) : String := String.mk [digitChar10 (n / 10), digitChar10 n]

/-- Four-digit rendering of a year (`%Y` of `strftime`). -/
def year4 (n : Nat) : String :=
  String.mk [digitChar10 (n / 1000), digitChar10 (n / 100), digitChar10 (n / 10), digitChar10 n]

/-- Model of `strftime("%Y-%m-%d")`. -/
def fmtIso (dt : Date) : String := year4 dt.y ++ "-" ++ pad2 dt.m ++ "-" ++ pad2 dt.d

/-- Model of `str.zfill(2)` on a captured digit group. -/
def zfill2 (s : String) : String := if s.length < 2 then "0" ++ s else s

/-- Turn a `YYYYMMDD` string into `YYYY-MM-DD`, as the source does with
`f"{date_info[:4]}-{date_info[4:6]}-{date_info[6:8]}"`. -/
def dashifyCompact (s : String) : String :=
  String.mk (s.data.take 4) ++ "-" ++ String.mk ((s.data.drop 4).take 2)
    ++ "-" ++ String.mk ((s.data.drop 6).take 2)

/-! ## Rows, filters and the remote store

A database row is an association list from column name to value.  The
Supabase query builder is modelled by a list of accumulated filters that
the remote store applies conjunctively. -/

/-- A column value: SQL `NULL`, an integer, or a text value.  Numeric
statistics (including rate statistics, which the source only ever
compares and sorts) are modelled as integers. -/
inductive Value where
  | vNull : Value
  | vInt : Int → Value
  | vStr : String → Value
deriving DecidableEq

/-- A database row. -/
abbrev Row := List (String × Value)

/-- Column lookup; a missing column reads as `NULL`. -/
def valOf (r : Row) (c : String) : Value :=
  match r.find? (fun p => p.1 == c) with
  | some p => p.2
  | none => .vNull

/-- A server-side filter accumulated on the query builder:
`query.eq(col, val)`, `query.not_.is_(col, "null")`, `query.gte(col, n)`. -/
inductive Filter where
  | eqF : String → String → Filter
  | notNullF : String → Filter
  | gteF : String → Int → Filter
deriving DecidableEq

/-- Whether a row passes one filter. -/
def filterMatches (r : Row) : Filter → Bool
  | .eqF c v => valOf r c == .vStr v
  | .notNullF c => !(valOf r c == .vNull)
  | .gteF c n =>
    match valOf r c with
    | .vInt a => decide (n ≤ a)
    | _ => false

/-- The remote store applies all accumulated filters conjunctively. -/
def applyFilters (store : List Row) (fs : List Filter) : List Row :=
  store.filter (fun r => fs.all (fun f => filterMatches r f))

deriving instance DecidableEq for Except

/-! ## Stable sorting

Python `sorted` and `list.sort` are stable; with `reverse=True` the key
comparison is flipped while equal keys keep their original order.  A
stable sort is extensionally unique, so we model it by stable insertion
sort over a total boolean preorder `le`. -/

/-- Insert `a` after every earlier element `b` with `le b a` (keeping
equal elements in their original order). -/
def insertLe (le : α → α → Bool) (a : α) : List α → List α
  | [] => [a]
  | b :: bs => if le b a then b :: insertLe le a bs else a :: b :: bs

/-- Stable sort with respect to `le`. -/
def sortStable (le : α → α → Bool) (l : List α) : List α :=
  l.foldl (fun acc a => insertLe le a acc) []

/-- Sort key of a row for an `ORDER BY` column: `x.get(column, 0) or 0`,
so a missing or `NULL` (or non-numeric) sort key reads as `0`. -/
def sortKey (r : Row) (c : String) : Int :=
  match valOf r c with
  | .vInt n => n
  | _ => 0

/-- Row comparison for `sorted(data, key=..., reverse=(direction == "DESC"))`:
`desc = true` flips the comparison, keeping equal keys stable. -/
def rowLe (c : String) (desc : Bool) (r1 r2 : Row) : Bool :=
  if desc then decide (sortKey r2 c ≤ sortKey r1 c)
  else decide (sortKey r1 c ≤ sortKey r2 c)

/-! ## SQL component extraction (`rag_text_to_sql.py` regexes) -/

/-- Expect one specific character. -/
def expectChar (c : Char) : List Char → Option (List Char)
  | x :: rest => if x == c then some rest else none
  | [] => none

/-- Convert a captured digit group to a number (`int(...)`). -/
def digitsToNat (s : String) : Nat :=
  s.data.foldl (fun a c => a * 10 + (c.toNat - 48)) 0

/-- A position is a stop for the lazy group of
`WHERE\s+(.+?)(?:\s+ORDER|\s+LIMIT|$)` when whitespace followed by
`ORDER` or `LIMIT` starts here. -/
def whereStopHere (cs : List Char) : Bool :=
  match ws1 cs with
  | some rest => (litCI "ORDER".data rest).isSome || (litCI "LIMIT".data rest).isSome
  | none => false

/-- Characters of the lazy `(.+?)` capture after the first, ending at the
first stop position (or at the end of the string, the `$` alternative). -/
def whereBodyGo : List Char → List Char
  | [] => []
  | c :: cs => if whereStopHere (c :: cs) then [] else c :: whereBodyGo cs

/-- Match `WHERE\s+(.+?)(?:\s+ORDER|\s+LIMIT|$)` at this position. -/
def whereMatcher (cs : List Char) : Option String :=
  match litCI "WHERE".data cs with
  | none => none
  | some r1 =>
    match ws1 r1 with
    | none => none
    | some r2 =>
      match r2 with
      | [] => none
      | c :: cs' => some (String.mk (c :: whereBodyGo cs'))

/-- The `WHERE` clause body captured by `_extract_where_conditions`. -/
def whereClauseOf (sql : String) : Option String :=
  scanFirst whereMatcher sql.data

/-- Match one `(\w+)\s*=\s*['\x22]([^'\x22]+)['\x22]` condition. -/
def condMatcher (cs : List Char) : Option ((String × String) × List Char) :=
  match word1 cs with
  | none => none
  | some (col, r1) =>
    match expectChar '=' (ws0 r1) with
    | none => none
    | some r2 =>
      match quote1 (ws0 r2) with
      | none => none
      | some r3 =>
        match nonQuote1 r3 with
        | none => none
        | some (v, r4) =>
          match quote1 r4 with
          | none => none
          | some r5 => some ((col, v), r5)

/-- Insert into the conditions dict, overwriting an existing key in place
(Python `dict` assignment). -/
def dictInsert (l : List (String × String)) (k v : String) : List (String × String) :=
  if l.any (fun p => p.1 == k) then
    l.map (fun p => if p.1 == k then (k, v) else p)
  else l ++ [(k, v)]

/-- Model of `RAGTextToSQL._extract_where_conditions`. -/
def extractWhereConditions (sql : String) : List (String × String) :=
  match whereClauseOf sql with
  | none => []
  | some body =>
    (scanAll condMatcher body.length body.data).foldl
      (fun acc p => dictInsert acc p.1 p.2) []

/-- Dict lookup `conditions.get(k)`. -/
def condGet (conds : List (String × String)) (k : String) : Option String :=
  (conds.find? (fun p => p.1 == k)).map (fun p => p.2)

/-- Match `ORDER BY\s+(\w+)\s+(DESC|ASC)` at this position, returning the
lowered column and `desc = (direction.upper() == "DESC")`. -/
def orderDirMatcher (cs : List Char) : Option (String × Bool) :=
  match litCI "ORDER BY".data cs with
  | none => none
  | some r1 =>
    match ws1 r1 with
    | none => none
    | some r2 =>
      match word1 r2 with
      | none => none
      | some (col, r3) =>
        match ws1 r3 with
        | none => none
        | some r4 =>
          if (litCI "DESC".data r4).isSome then some (lowerStr col, true)
          else if (litCI "ASC".data r4).isSome then some (lowerStr col, false)
          else none

/-- The `ORDER BY column DESC|ASC` clause used by `_execute_direct_sql`. -/
def orderByDir (sql : String) : Option (String × Bool) :=
  scanFirst orderDirMatcher sql.data

/-- Match `LIMIT\s+(\d+)` at this position. -/
def limitMatcher (cs : List Char) : Option Nat :=
  match litCI "LIMIT".data cs with
  | none => none
  | some r1 =>
    match ws1 r1 with
    | none => none
    | some r2 => (digits1 r2).map (fun p => digitsToNat p.1)

/-- The `LIMIT n` clause used by `_execute_direct_sql`. -/
def limitOf (sql : String) : Option Nat :=
  scanFirst limitMatcher sql.data

/-- Split a character run on dots. -/
def dotSegments (cs : List Char) : List (List Char) :=
  cs.foldr
    (fun c acc =>
      match acc with
      | [] => if c == '.' then [[], []] else [[c]]
      | seg :: rest => if c == '.' then [] :: seg :: rest else (c :: seg) :: rest)
    [[]]

/-- Match `ORDER BY\s+(?:[\w.]+\.)?(\w+)` at this position (the alias-aware
variant used by `_determine_player_type`), returning the lowered column. -/
def orderColMatcher (cs : List Char) : Option String :=
  match litCI "ORDER BY".data cs with
  | none => none
  | some r1 =>
    match ws1 r1 with
    | none => none
    | some r2 =>
      let run := r2.takeWhile (fun c => isWordChar c || c == '.')
      match (dotSegments run).filter (fun seg => !seg.isEmpty) |>.getLast? with
      | some seg => some (lowerStr (String.mk seg))
      | none => none

/-- The `ORDER BY` column seen by `_determine_player_type`. -/
def orderColOf (sql : String) : Option String :=
  scanFirst orderColMatcher sql.data

/-- A position is a stop for the lazy group of `SELECT\s+(.+?)\s+FROM`
when whitespace followed by `FROM` starts here. -/
def selectStopHere (cs : List Char) : Bool :=
  match ws1 cs with
  | some rest => (litCI "FROM".data rest).isSome
  | none => false

/-- Characters of the lazy capture after the first; fails (unlike the
`WHERE` pattern, which has a `$` alternative) when no `\s+FROM` follows. -/
def selectBodyGo : List Char → Option (List Char)
  | [] => none
  | c :: cs =>
    if selectStopHere (c :: cs) then some []
    else (selectBodyGo cs).map (fun l => c :: l)

/-- Match `SELECT\s+(.+?)\s+FROM` at this position. -/
def selectMatcher (cs : List Char) : Option String :=
  match litCI "SELECT".data cs with
  | none => none
  | some r1 =>
    match ws1 r1 with
    | none => none
    | some r2 =>
      match r2 with
      | [] => none
      | c :: cs' => (selectBodyGo cs').map (fun l => String.mk (c :: l))

/-- The `SELECT` list captured (and lowered) by `_determine_player_type`. -/
def selectColsOf (sql : String) : Option String :=
  (scanFirst selectMatcher sql.data).map lowerStr

/-! ## Player type inference (`_determine_player_type`) -/

/-- Pitcher-only keyword set of `_determine_player_type`. -/
def pitcherKeywords : List String :=
  ["era", "w", "l", "sv", "hold", "cg", "sho", "bf", "inn", "er",
   "whip", "k9", "bb9", "kbb", "qs", "wra", "투수", "선발", "구원", "마무리"]

/-- Batter-only keyword set of `_determine_player_type`. -/
def batterKeywords : List String :=
  ["hra", "hr", "h2", "h3", "rbi", "ab", "obp", "slg", "ops", "isop",
   "babip", "wrcplus", "woba", "wpa", "타자", "타율", "홈런", "타점",
   "득점", "안타", "타수", "출루율", "장타율"]

/-- The role the compiler infers for a query. -/
inductive PlayerType where
  | pitcher : PlayerType
  | batter : PlayerType
  | both : PlayerType
deriving DecidableEq

/-- Model of `RAGTextToSQL._determine_player_type`: keyword counts over
the lowered SQL, `+10` for an `ORDER BY` column found in a keyword set,
`+3` per keyword found in the `SELECT` list. -/
def determinePlayerType (sql : String) : PlayerType :=
  let sqlL := lowerStr sql
  let pBase := countKeywords sqlL pitcherKeywords
  let bBase := countKeywords sqlL batterKeywords
  let po :=
    match orderColOf sql with
    | some col => if pitcherKeywords.contains col then pBase + 10 else pBase
    | none => pBase
  let bo :=
    match orderColOf sql with
    | some col =>
      if pitcherKeywords.contains col then bBase
      else if batterKeywords.contains col then bBase + 10 else bBase
    | none => bBase
  let ps :=
    match selectColsOf sql with
    | some sel => po + 3 * countKeywords sel pitcherKeywords
    | none => po
  let bs :=
    match selectColsOf sql with
    | some sel => bo + 3 * countKeywords sel batterKeywords
    | none => bo
  if bs < ps then .pitcher
  else if ps < bs then .batter
  else .both

/-- True when `_determine_player_type` returns `batter` or `both`
(`player_type in ["batter", "both"]`). -/
def playerTypeInB (sql : String) : Bool :=
  match determinePlayerType sql with
  | .pitcher => false
  | _ => true

/-! ## Player-name extraction (`_extract_player_names_from_sql`) -/

/-- The known canonical team codes that must never be treated as player
names. -/
def teamCodes : List String :=
  ["HH", "OB", "HT", "WO", "LT", "SS", "SK", "KT", "NC", "LG"]

/-- Match `player_name\s+IN\s*\(\s*['\x22](..)['\x22]\s*,\s*['\x22](..)['\x22]\s*\)`. -/
def inPairMatcher (cs : List Char) : Option (List String × List Char) :=
  match litCI "player_name".data cs with
  | none => none
  | some r1 =>
    match ws1 r1 with
    | none => none
    | some r2 =>
      match litCI "IN".data r2 with
      | none => none
      | some r3 =>
        match expectChar '(' (ws0 r3) with
        | none => none
        | some r4 =>
          match quote1 (ws0 r4) with
          | none => none
          | some r5 =>
            match nonQuote1 r5 with
            | none => none
            | some (v1, r6) =>
              match quote1 r6 with
              | none => none
              | some r7 =>
                match expectChar ',' (ws0 r7) with
                | none => none
                | some r8 =>
                  match quote1 (ws0 r8) with
                  | none => none
                  | some r9 =>
                    match nonQuote1 r9 with
                    | none => none
                    | some (v2, r10) =>
                      match quote1 r10 with
                      | none => none
                      | some r11 =>
                        match expectChar ')' (ws0 r11) with
                        | none => none
                        | some r12 => some ([v1, v2], r12)

/-- Match `player_name\s*=\s*['\x22]([^'\x22]+)['\x22]`. -/
def eqNameMatcher (cs : List Char) : Option (List String × List Char) :=
  match litCI "player_name".data cs with
  | none => none
  | some r1 =>
    match expectChar '=' (ws0 r1) with
    | none => none
    | some r2 =>
      match quote1 (ws0 r2) with
      | none => none
      | some r3 =>
        match nonQuote1 r3 with
        | none => none
        | some (v, r4) =>
          match quote1 r4 with
          | none => none
          | some r5 => some ([v], r5)

/-- Match `p\.player_name\s*=\s*['\x22]([^'\x22]+)['\x22]`. -/
def aliasEqNameMatcher (cs : List Char) : Option (List String × List Char) :=
  match litCI "p.player_name".data cs with
  | none => none
  | some r1 =>
    match expectChar '=' (ws0 r1) with
    | none => none
    | some r2 =>
      match quote1 (ws0 r2) with
      | none => none
      | some r3 =>
        match nonQuote1 r3 with
        | none => none
        | some (v, r4) =>
          match quote1 r4 with
          | none => none
          | some r5 => some ([v], r5)

/-- Model of `RAGTextToSQL._extract_player_names_from_sql`: collect the
matches of the three patterns and drop every value whose uppercase form
is a known team code. -/
def extractPlayerNamesFromSql (sql : String) : List String :=
  let n := sql.length
  let allMatches :=
    (scanAll inPairMatcher n sql.data).flatten
      ++ (scanAll eqNameMatcher n sql.data).flatten
      ++ (scanAll aliasEqNameMatcher n sql.data).flatten
  allMatches.filter (fun name => !(teamCodes.contains (upperStr name)))

/-! ## Team games count and the qualified-plate-appearance threshold -/

/-- The `team`/`gamenum` projection of a season-stats row, when both
columns have the expected shapes. -/
def rowTeamGame (r : Row) : Option (String × Int) :=
  match valOf r "team", valOf r "gamenum" with
  | .vStr t, .vInt g => some (t, g)
  | _, _ => none

/-- Keep the larger games count per team
(`if team not in team_games or gamenum > team_games[team]`). -/
def tgUpdate (m : List (String × Int)) (t : String) (g : Int) : List (String × Int) :=
  match m.find? (fun p => p.1 == t) with
  | some p => if p.2 < g then m.map (fun q => if q.1 == t then (t, g) else q) else m
  | none => m ++ [(t, g)]

/-- The hard-coded fallback dict `_get_team_games_count` returns when its
query or field accesses raise. -/
def defaultTeamGames : List (String × Int) :=
  [("한화", 128), ("두산", 123), ("LG", 128), ("NC", 126), ("SSG", 125),
   ("KIA", 117), ("KT", 116), ("롯데", 130), ("삼성", 129), ("키움", 130)]

/-- Model of `RAGTextToSQL._get_team_games_count`: the per-team maximum of
`gamenum` over the 2025 season rows; a row with a missing or non-numeric
`team`/`gamenum` raises in Python and the whole call degrades to the
hard-coded default dict. -/
def getTeamGamesCount (store : List Row) : List (String × Int) :=
  let rows := store.filter (fun r => valOf r "gyear" == .vStr "2025")
  if rows.all (fun r => (rowTeamGame r).isSome) then
    rows.foldl
      (fun m r =>
        match rowTeamGame r with
        | some (t, g) => tgUpdate m t g
        | none => m) []
  else defaultTeamGames

/-- Dict lookup in the team-games map. -/
def tgLookup (m : List (String × Int)) (t : String) : Option Int :=
  (m.find? (fun p => p.1 == t)).map (fun p => p.2)

/-- `int(team_games[team] * 3.1)`: Python truncates the product toward
zero, which for the nonnegative games counts that occur is the floor of
the exact rational `3.1 * g`, i.e. `(31 * g) / 10` rounded down. -/
def qualifiedPaTeam (g : Int) : Int := Int.fdiv (31 * g) 10

/-- Sum of the games counts of the team-games map. -/
def sumGames (m : List (String × Int)) : Int :=
  m.foldl (fun a p => a + p.2) 0

/-- `int((sum(team_games.values()) / len(team_games)) * 3.1)` as the floor
of the exact rational `3.1 * sum / len`. -/
def qualifiedPaAvg (m : List (String × Int)) : Int :=
  Int.fdiv (31 * sumGames m) (10 * (m.length : Int))

/-- The condition `"hra" in sql.lower() or "타율" in question` guarding
both the null-average exclusion and the qualified-batter threshold. -/
def hraCondition (sql question : String) : Bool :=
  containsSub (lowerStr sql) "hra" || containsSub question "타율"

/-! ## The direct SQL executor (`_execute_direct_sql`) -/

/-- The role-based null filter of `_execute_direct_sql` (batter: `hra`
not null; pitcher: `era` not null). -/
def typeFilters (sql : String) : List Filter :=
  match determinePlayerType sql with
  | .batter => [.notNullF "hra"]
  | .pitcher => [.notNullF "era"]
  | .both => []

/-- The unconditional null-average exclusion applied whenever `hra`
appears in the SQL or `타율` in the question. -/
def hraFilters (sql question : String) : List Filter :=
  if hraCondition sql question then [.notNullF "hra"] else []

/-- Inside the qualified-batter branch, `player_type == "both"` adds the
null-average exclusion once more. -/
def bothFilters (sql : String) : List Filter :=
  if determinePlayerType sql == .both then [.notNullF "hra"] else []

/-- The qualified-plate-appearance filter of the branch: a named team
found in the games map gets `int(games * 3.1)`; a named team missing from
the map gets no filter; with no team named, the league-average threshold
is used, and an empty games map raises `ZeroDivisionError` (`.error`). -/
def qualFilters (store : List Row) (sql : String) : Except Unit (List Filter) :=
  match condGet (extractWhereConditions sql) "team" with
  | some t =>
    match tgLookup (getTeamGamesCount store) t with
    | some g => .ok [.gteF "ab" (qualifiedPaTeam g)]
    | none => .ok []
  | none =>
    match getTeamGamesCount store with
    | [] => .error ()
    | tg => .ok [.gteF "ab" (qualifiedPaAvg tg)]

/-- The role/average/threshold filters `_execute_direct_sql` accumulates
beyond the equality predicates, in the order the query builder receives
them.  `Except.error` is the `ZeroDivisionError` raised when no team is
named and the team-games map is empty; the surrounding `except` turns it
into an empty result. -/
def derivedOutcome (store : List Row) (sql question : String) :
    Except Unit (List Filter) :=
  if hraCondition sql question && playerTypeInB sql then
    (qualFilters store sql).map
      (fun qf => typeFilters sql ++ hraFilters sql question ++ bothFilters sql ++ qf)
  else .ok (typeFilters sql ++ hraFilters sql question)

/-- The equality filters from the `WHERE` conditions. -/
def eqFiltersOf (sql : String) : List Filter :=
  (extractWhereConditions sql).map (fun p => Filter.eqF p.1 p.2)

/-- The threshold the code uses on the named-team and no-team paths; used
to state the qualified-batter hypotheses. -/
def requiredPa (store : List Row) (sql : String) : Option Int :=
  match condGet (extractWhereConditions sql) "team" with
  | some t => (tgLookup (getTeamGamesCount store) t).map qualifiedPaTeam
  | none =>
    match getTeamGamesCount store with
    | [] => none
    | tg => some (qualifiedPaAvg tg)

/-- Where sorting and truncation happen, decided from the presence of the
`ORDER BY`/`LIMIT` clauses alone. -/
inductive SortLimitPlan where
  | clientSortLimit : String → Bool → Nat → SortLimitPlan
  | serverOrder : String → Bool → SortLimitPlan
  | serverLimit : Nat → SortLimitPlan
  | noSortLimit : SortLimitPlan
deriving DecidableEq

/-- The branch selector of `_execute_direct_sql`: both clauses present
means fetch-all / sort in Python / slice; a single clause is delegated to
the remote store. -/
def planOf (sql : String) : SortLimitPlan :=
  match orderByDir sql, limitOf sql with
  | some (c, d), some n => .clientSortLimit c d n
  | some (c, d), none => .serverOrder c d
  | none, some n => .serverLimit n
  | none, none => .noSortLimit

/-- Execute the chosen plan over the filtered rows. -/
def rowsOfPlan (p : SortLimitPlan) (filtered : List Row) : List Row :=
  match p with
  | .clientSortLimit c d n => (sortStable (rowLe c d) filtered).take n
  | .serverOrder c d => sortStable (rowLe c d) filtered
  | .serverLimit n => filtered.take n
  | .noSortLimit => filtered

/-- The rows `_execute_direct_sql` returns. -/
def directRows (store : List Row) (sql question : String) : List Row :=
  match derivedOutcome store sql question with
  | .error _ => []
  | .ok extra => rowsOfPlan (planOf sql) (applyFilters store (eqFiltersOf sql ++ extra))

/-- Model of `RAGTextToSQL._execute_direct_sql`, returning the rows and
the trace of remote-store calls made. -/
def executeDirectSql (store : List Row) (sql question : String) :
    List Row × List String :=
  let tgCalls :=
    if hraCondition sql question && playerTypeInB sql then
      ["select player_season_stats team gamenum"]
    else []
  match derivedOutcome store sql question with
  | .error _ => ([], tgCalls)
  | .ok _ => (directRows store sql question, tgCalls ++ ["select player_season_stats"])

/-- The exact-rational ceiling threshold `⌈3.1 × g⌉` named by the claim,
for comparison with the truncating threshold the code computes. -/
def qualifiedPaCeil (g : Int) : Int := Int.fdiv (31 * g + 9) 10

/-- Boolean check that a row's `ab` is present and at least `t`. -/
def abAtLeast (r : Row) (t : Int) : Bool :=
  match valOf r "ab" with
  | .vInt a => decide (t ≤ a)
  | _ => false

/-! ## Date extraction (`_extract_date_from_question`,
`_extract_relative_date`, `_extract_target_date`) -/

/-- Match `(\d{4})년\s*(\d{1,2})월\s*(\d{1,2})일` at this position,
returning the compact `YYYYMMDD` form the source builds. -/
def dateKoreanMatcher (cs : List Char) : Option String :=
  match digitsExact 4 cs with
  | none => none
  | some (y, r1) =>
    match litCI "년".data r1 with
    | none => none
    | some r2 =>
      digits12Then
        (fun Mo r3 =>
          match litCI "월".data r3 with
          | none => none
          | some r4 =>
            digits12Then
              (fun d r5 =>
                match litCI "일".data r5 with
                | none => none
                | some _ => some (y ++ zfill2 Mo ++ zfill2 d))
              (ws0 r4))
        (ws0 r2)

/-- Match `(\d{4})-(\d{1,2})-(\d{1,2})` at this position, returning the
compact `YYYYMMDD` form. -/
def dateIsoCompactMatcher (cs : List Char) : Option String :=
  match digitsExact 4 cs with
  | none => none
  | some (y, r1) =>
    match expectChar '-' r1 with
    | none => none
    | some r2 =>
      digits12Then
        (fun Mo r3 =>
          match expectChar '-' r3 with
          | none => none
          | some r4 =>
            digits12Then (fun d _ => some (y ++ zfill2 Mo ++ zfill2 d)) r4)
        r2

/-- Match `(\d{1,2})/(\d{1,2})` at this position; the year is the
injected current year. -/
def dateSlashCompactMatcher (year : String) (cs : List Char) : Option String :=
  digits12Then
    (fun Mo r1 =>
      match expectChar '/' r1 with
      | none => none
      | some r2 => digits12Then (fun d _ => some (year ++ zfill2 Mo ++ zfill2 d)) r2)
    cs

/-- Match `(\d{1,2})월\s*(\d{1,2})일` at this position; the year is the
injected current year. -/
def dateMonthDayCompactMatcher (year : String) (cs : List Char) : Option String :=
  digits12Then
    (fun Mo r1 =>
      match litCI "월".data r1 with
      | none => none
      | some r2 =>
        digits12Then
          (fun d r3 =>
            match litCI "일".data r3 with
            | none => none
            | some _ => some (year ++ zfill2 Mo ++ zfill2 d))
          (ws0 r2))
    cs

/-- Model of `RAGTextToSQL._extract_date_from_question`: the four
explicit-date patterns tried in source order, producing `YYYYMMDD`;
`nowYear` injects `datetime.now().year` for the year-less patterns. -/
def extractDateFromQuestion (nowYear : Nat) (question : String) : Option String :=
  match scanFirst dateKoreanMatcher question.data with
  | some d => some d
  | none =>
    match scanFirst dateIsoCompactMatcher question.data with
    | some d => some d
    | none =>
      match scanFirst (dateSlashCompactMatcher (year4 nowYear)) question.data with
      | some d => some d
      | none => scanFirst (dateMonthDayCompactMatcher (year4 nowYear)) question.data

/-- Model of `RAGTextToSQL._extract_relative_date`: the named relative
terms checked in source order against the lowered question, producing
`YYYY-MM-DD` from the injected `now`. -/
def extractRelativeDate (now : Date) (question : String) : Option String :=
  let ql := lowerStr question
  if containsSub ql "어제" then some (fmtIso (prevDay now))
  else if containsSub ql "오늘" then some (fmtIso now)
  else if containsSub ql "내일" then some (fmtIso (nextDay now))
  else if containsSub ql "최근" || containsSub ql "지난" then some (fmtIso (prevDay now))
  else none

/-- Match `(\d{4})-(\d{1,2})-(\d{1,2})` at this position, returning the
dashed zero-filled form `_extract_target_date` builds. -/
def dateIsoDashMatcher (cs : List Char) : Option String :=
  match digitsExact 4 cs with
  | none => none
  | some (y, r1) =>
    match expectChar '-' r1 with
    | none => none
    | some r2 =>
      digits12Then
        (fun Mo r3 =>
          match expectChar '-' r3 with
          | none => none
          | some r4 =>
            digits12Then (fun d _ => some (y ++ "-" ++ zfill2 Mo ++ "-" ++ zfill2 d)) r4)
        r2

/-- Match `(\d{1,2})/(\d{1,2})` at this position, dashed form with the
injected current year. -/
def dateSlashDashMatcher (year : String) (cs : List Char) : Option String :=
  digits12Then
    (fun Mo r1 =>
      match expectChar '/' r1 with
      | none => none
      | some r2 =>
        digits12Then (fun d _ => some (year ++ "-" ++ zfill2 Mo ++ "-" ++ zfill2 d)) r2)
    cs

/-- Match `(\d{1,2})월\s*(\d{1,2})일` at this position, dashed form with
the injected current year. -/
def dateMonthDayDashMatcher (year : String) (cs : List Char) : Option String :=
  digits12Then
    (fun Mo r1 =>
      match litCI "월".data r1 with
      | none => none
      | some r2 =>
        digits12Then
          (fun d r3 =>
            match litCI "일".data r3 with
            | none => none
            | some _ => some (year ++ "-" ++ zfill2 Mo ++ "-" ++ zfill2 d))
          (ws0 r2))
    cs

/-- Match `(\d{1,2})일` at this position: day of the injected current
month (`f"{today.year}-{today.month:02d}-{day.zfill(2)}"`). -/
def dateDayOnlyMatcher (now : Date) (cs : List Char) : Option String :=
  digits12Then
    (fun d r1 =>
      match litCI "일".data r1 with
      | none => none
      | some _ => some (year4 now.y ++ "-" ++ pad2 now.m ++ "-" ++ zfill2 d))
    cs

/-- The explicit-pattern tail of `_extract_target_date`, tried only after
every relative keyword has failed. -/
def targetDatePatterns (now : Date) (question : String) : Option String :=
  match scanFirst dateIsoDashMatcher question.data with
  | some d => some d
  | none =>
    match scanFirst (dateSlashDashMatcher (year4 now.y)) question.data with
    | some d => some d
    | none =>
      match scanFirst (dateMonthDayDashMatcher (year4 now.y)) question.data with
      | some d => some d
      | none => scanFirst (dateDayOnlyMatcher now) question.data

/-- Model of `RAGTextToSQL._extract_target_date`: the relative-term chain
is checked first (so `내일` wins over any explicit date in the question),
then the explicit patterns; `이번 주` and `앞으로` deliberately resolve
to no date. -/
def extractTargetDate (now : Date) (question : String) : Option String :=
  let ql := lowerStr question
  if containsSub ql "내일" || containsSub ql "tomorrow" then
    some (fmtIso (nextDay now))
  else if containsSub ql "모레" || containsSub ql "day after tomorrow" then
    some (fmtIso (nextDay (nextDay now)))
  else if containsSub ql "글피" then some (fmtIso (nextDay (nextDay (nextDay now))))
  else if containsSub ql "다음 주" || containsSub ql "next week" then
    some (fmtIso (addDays 7 now))
  else if containsSub ql "이번 주" || containsSub ql "this week" then none
  else if containsSub ql "앞으로" || containsSub ql "앞으로 남은" || containsSub ql "upcoming" then
    none
  else if containsSub ql "오늘" || containsSub ql "today" then some (fmtIso now)
  else targetDatePatterns now question

/-- The date-resolution step of `_find_game_info_via_sql` (lines
1230-1239): the explicit patterns are tried first and the relative terms
only when they fail, so an explicit date wins on this path. -/
def findGameInfoDate (now : Date) (question : String) : Option String :=
  match extractDateFromQuestion now.y question with
  | some d => some d
  | none => extractRelativeDate now question

/-! ## The request classifier (`process_question` branch order) -/

/-- Result keywords of `_is_daily_games_question`. -/
def dailyResultKeywords : List String :=
  ["경기 결과", "경기들", "모든 경기", "전체 경기", "그날 경기",
   "경기 현황", "경기 상황", "오늘의 경기", "어제의 경기",
   "경기 요약", "어땠어", "어땠나", "어떻게 됐", "분석"]

/-- Schedule keywords of `_is_daily_games_question`. -/
def dailyGamesScheduleKeywords : List String :=
  ["경기 일정", "일정", "스케줄", "예정", "앞으로", "다음", "내일의 경기"]

/-- Team keywords shared by `_is_daily_games_question` and
`_is_daily_schedule_question` (matched against the lowered question, so
the upper-case Latin team names can never match). -/
def classifierTeamKeywords : List String :=
  ["한화", "두산", "KIA", "키움", "롯데", "삼성", "SSG", "KT", "NC", "LG",
   "이글스", "베어스", "타이거즈", "히어로즈", "자이언츠", "라이온즈",
   "랜더스", "위즈", "다이노스", "트윈스"]

/-- Schedule keywords of `_is_daily_schedule_question`. -/
def dailyScheduleKeywords : List String :=
  ["경기 일정", "일정", "스케줄", "예정", "앞으로"]

/-- Future-game-info keywords of `_is_future_game_info_question`. -/
def futureInfoKeywords : List String :=
  ["선발투수", "선발", "투수", "라인업", "출전", "선수", "누구", "어디서", "언제", "몇시",
   "경기장", "상대팀", "내일", "모레", "다음", "이번 주", "다음 주", "앞으로", "예정",
   "경기 정보", "경기 상세", "경기 세부사항", "경기 시간", "경기 장소", "어느 팀", "어떤 팀"]

/-- The short prediction-exclusion list `_is_future_game_info_question`
uses to cede prediction-like questions. -/
def predictionExclusionKeywords : List String :=
  ["이길", "질 것", "예상", "승부", "결과", "예측", "이길거같", "질거같", "승리", "패배"]

/-- The full prediction keyword list of `_is_game_prediction_question`. -/
def predictionKeywords : List String :=
  ["이길", "질 것", "예상", "승부", "누가", "어떤 팀", "결과", "예측", "이길거같", "질거같",
   "승리", "패배", "누가 이길", "어떤 팀이", "승부 예상", "경기 예상", "이길까", "질까",
   "승부는", "결과는", "이길 것 같", "질 것 같", "승부 예상", "경기 결과 예상",
   "누가 이길까", "어떤 팀이 이길까", "경기 승부 예상", "경기 결과 예측"]

/-- Model of `RAGTextToSQL._is_daily_schedule_question`. -/
def isDailyScheduleQuestion (question : String) : Bool :=
  let ql := lowerStr question
  if containsSub ql "다음 경기" then false
  else anyKeyword ql dailyScheduleKeywords && !(anyKeyword ql classifierTeamKeywords)

/-- Model of `RAGTextToSQL._is_daily_games_question`. -/
def isDailyGamesQuestion (question : String) : Bool :=
  let ql := lowerStr question
  anyKeyword ql dailyResultKeywords
    && !(anyKeyword ql dailyGamesScheduleKeywords)
    && !(anyKeyword ql classifierTeamKeywords)

/-- Model of `RAGTextToSQL._is_future_game_info_question`. -/
def isFutureGameInfoQuestion (question : String) : Bool :=
  let ql := lowerStr question
  if anyKeyword ql predictionExclusionKeywords then false
  else anyKeyword ql futureInfoKeywords

/-- Model of `RAGTextToSQL._is_game_prediction_question`. -/
def isGamePredictionQuestion (question : String) : Bool :=
  anyKeyword (lowerStr question) predictionKeywords

/-- Specific-date patterns of `_has_date_reference`. -/
def hasSpecificDateRef (question : String) : Bool :=
  (scanFirst dateKoreanMatcher question.data).isSome
    || (scanFirst dateIsoCompactMatcher question.data).isSome
    || (scanFirst (dateSlashCompactMatcher "0000") question.data).isSome
    || (scanFirst (dateMonthDayCompactMatcher "0000") question.data).isSome

/-- Relative-date keywords of `_has_date_reference`. -/
def relativeDateKeywords : List String :=
  ["어제", "오늘", "내일", "최근", "지난", "이번", "저번"]

/-- Model of `RAGTextToSQL._has_date_reference`. -/
def hasDateReference (question : String) : Bool :=
  hasSpecificDateRef question || anyKeyword (lowerStr question) relativeDateKeywords

/-- Game keywords of `_has_game_reference`. -/
def gameReferenceKeywords : List String :=
  ["경기", "게임", "승부", "결과", "스코어", "점수",
   "승리", "패배", "무승부", "어땠어", "어땠나", "어떻게"]

/-- Model of `RAGTextToSQL._has_game_reference`. -/
def hasGameReference (question : String) : Bool :=
  anyKeyword (lowerStr question) gameReferenceKeywords

/-- Direct keywords of `_is_game_analysis_question`. -/
def gameAnalysisDirectKeywords : List String :=
  ["경기 분석", "경기 결과", "경기 요약", "경기 리뷰"]

/-- Model of `RAGTextToSQL._is_game_analysis_question`; the
schema-manager similarity search over the intent corpus is an external
collaborator and is abstracted as the boolean oracle `ragSaysAnalysis`. -/
def isGameAnalysisQuestion (ragSaysAnalysis : String → Bool) (question : String) : Bool :=
  if isGamePredictionQuestion question then false
  else
    ragSaysAnalysis question
      || anyKeyword (lowerStr question) gameAnalysisDirectKeywords
      || (hasDateReference question && hasGameReference question)

/-- The categories `process_question` routes to. -/
inductive Category where
  | dailySchedule : Category
  | dailyResultsAnalysis : Category
  | futureGameDetail : Category
  | gamePrediction : Category
  | gameAnalysis : Category
  | genericQuery : Category
deriving DecidableEq

/-- Model of the branch order of `RAGTextToSQL.process_question`: the
daily-schedule check runs first, then daily results, future-game info,
prediction, game analysis, and finally the generic RAG pipeline. -/
def classifyQuestion (ragSaysAnalysis : String → Bool) (question : String) : Category :=
  if isDailyScheduleQuestion question then .dailySchedule
  else if isDailyGamesQuestion question then .dailyResultsAnalysis
  else if isFutureGameInfoQuestion question then .futureGameDetail
  else if isGamePredictionQuestion question then .gamePrediction
  else if isGameAnalysisQuestion ragSaysAnalysis question then .gameAnalysis
  else .genericQuery

/-! ## Schedule rows and the execute_sql dispatcher -/

/-- A `game_schedule` row with the columns the modelled paths read.
`statusCode` models `game_data.get("statusCode", "0")` (already
defaulted), and missing text columns are modelled as `""`, matching the
`game.get(key, "")` accesses of the source. -/
structure ScheduleRow where
  game_id : String
  game_date : String
  game_date_time : String
  home_team_code : String
  away_team_code : String
  home_team_name : String
  away_team_name : String
  stadium : String
  statusCode : String
  winner : String
  time : String
  home_team_score : Int
  away_team_score : Int
deriving DecidableEq

/-- Comparison by `game_date` used by `all_games.sort(key=...)`. -/
def schedDateLe (a b : ScheduleRow) : Bool := strLe a.game_date b.game_date

/-- Comparison by `game_date_time` used by `.order("game_date_time")`. -/
def schedTimeLe (a b : ScheduleRow) : Bool := strLe a.game_date_time b.game_date_time

/-- The data source behind the remote store, plus the per-player bundle
lookup of `get_player_complete_data`. -/
structure Env where
  playerStats : List Row
  schedule : List ScheduleRow
  gameResult : List Row
  playerBundle : String → Option Row

/-- What a call to `execute_sql` returns: the gate and error paths return
plain lists, the table paths return rows, and Python's implicit `return
None` fall-through is `noneOut`. -/
inductive SqlOut where
  | noneOut : SqlOut
  | strs : List String → SqlOut
  | rows : List Row → SqlOut
  | sched : List ScheduleRow → SqlOut
deriving DecidableEq

/-- The slice `sql[sql.upper().find("WHERE"):]` with the `ORDER BY` and
`LIMIT` tails cut off and the result stripped, as `_get_game_schedule_data`
computes it; `""` when the SQL has no `WHERE`. -/
def whereClauseSlice (sql : String) : String :=
  match idxOfSubCI "WHERE".data sql.data with
  | none => ""
  | some i =>
    let tail := sql.data.drop i
    let cut1 :=
      match idxOfSubCI "ORDER BY".data tail with
      | some j => tail.take j
      | none => tail
    let cut2 :=
      match idxOfSubCI "LIMIT".data cut1 with
      | some j => cut1.take j
      | none => cut1
    stripStr (String.mk cut2)

/-- Model of `RAGTextToSQL._get_game_schedule_data`: the only structured
branch handles a `한화` condition (home and away queried separately and
merged) with an optional `CURRENT_DATE` lower bound applied client-side
against the injected `now`; everything else selects the whole table. -/
def getGameScheduleData (env : Env) (now : Date) (sql : String) :
    SqlOut × List String :=
  if containsSub (upperStr sql) "SELECT" then
    let wc := whereClauseSlice sql
    if !(wc == "") && containsSub wc "한화" then
      let homeGames := env.schedule.filter (fun g => g.home_team_name == "한화")
      let awayGames := env.schedule.filter (fun g => g.away_team_name == "한화")
      let calls := ["select game_schedule home", "select game_schedule away"]
      if containsSub wc "game_date::date >= CURRENT_DATE" then
        let today := fmtIso now
        let homeF := homeGames.filter (fun g => strGe g.game_date today)
        let awayF := awayGames.filter (fun g => strGe g.game_date today)
        (.sched (sortStable schedDateLe (homeF ++ awayF)), calls)
      else
        (.sched (sortStable schedDateLe (homeGames ++ awayGames)), calls)
    else (.sched env.schedule, ["select game_schedule"])
  else (.sched env.schedule, ["select game_schedule"])

/-- Model of `RAGTextToSQL._query_player_data`: extracted player names
are looked up one by one (each a remote call); with no names the query
falls through to `_execute_direct_sql`. -/
def queryPlayerData (env : Env) (sql question : String) : SqlOut × List String :=
  let names := extractPlayerNamesFromSql sql
  if names.isEmpty then
    let out := executeDirectSql env.playerStats sql question
    (.rows out.1, out.2)
  else
    (.rows (names.filterMap env.playerBundle),
     names.map (fun n => "get_player_complete_data " ++ n))

/-- Model of `RAGTextToSQL.execute_sql`: the `SELECT` gate, the
`DB_ERROR` echo, and the three table dispatches, with the trace of
remote-store calls made. -/
def executeSql (env : Env) (now : Date) (sql question : String) :
    SqlOut × List String :=
  if strStartsWith (upperStr sql) "SELECT" then
    if containsSub (upperStr sql) "DB_ERROR:" then (.strs [sql], [])
    else if containsSub (lowerStr sql) "game_schedule" then
      getGameScheduleData env now sql
    else if containsSub (lowerStr sql) "game_result" then
      (.rows env.gameResult, ["select game_result"])
    else if containsSub (lowerStr sql) "player_season_stats"
        || containsSub (lowerStr sql) "player_game_stats" then
      queryPlayerData env sql question
    else (.noneOut, [])
  else (.rows [], [])

/-- A single well-formed `SELECT ... ;` statement, written from the
specification's contract for `compile` (this is the specification-side
notion the claim quantifies over; the code itself never checks more than
the `SELECT` prefix). -/
def specSingleSelectStatement (sql : String) : Bool :=
  let s := stripStr sql
  strStartsWith (upperStr s) "SELECT"
    && (match s.data.getLast? with
        | some c => c == ';'
        | none => false)
    && (s.data.filter (fun c => c == ';')).length == 1

/-! ## Team extraction and the daily-games lookup (`_find_daily_games_via_sql`) -/

/-- The alias table of `_extract_team_from_question`, in source order. -/
def teamMappings : List (String × String) :=
  [("한화", "한화"), ("한화이글스", "한화"), ("이글스", "한화"),
   ("두산", "두산"), ("두산베어스", "두산"), ("베어스", "두산"),
   ("KIA", "KIA"), ("KIA타이거즈", "KIA"), ("타이거즈", "KIA"),
   ("키움", "키움"), ("키움히어로즈", "키움"), ("히어로즈", "키움"),
   ("롯데", "롯데"), ("롯데자이언츠", "롯데"), ("자이언츠", "롯데"),
   ("삼성", "삼성"), ("삼성라이온즈", "삼성"), ("라이온즈", "삼성"),
   ("SSG", "SSG"), ("SSG랜더스", "SSG"), ("랜더스", "SSG"),
   ("KT", "KT"), ("KT위즈", "KT"), ("위즈", "KT"),
   ("NC", "NC"), ("NC다이노스", "NC"), ("다이노스", "NC"),
   ("LG", "LG"), ("LG트윈스", "LG"), ("트윈스", "LG")]

/-- Model of `RAGTextToSQL._extract_team_from_question`: first alias (in
insertion order) occurring in the question wins. -/
def extractTeamFromQuestion (question : String) : Option String :=
  (teamMappings.find? (fun p => containsSub question p.1)).map (fun p => p.2)

/-- The team-name to team-code mapping used by the schedule lookups. -/
def teamCodeMapping : List (String × String) :=
  [("한화", "HH"), ("두산", "OB"), ("KIA", "HT"), ("키움", "WO"),
   ("롯데", "LT"), ("삼성", "SS"), ("SSG", "SK"), ("KT", "KT"),
   ("NC", "NC"), ("LG", "LG")]

/-- `team_code_mapping.get(team_info, team_info)`. -/
def teamCodeOf (team : String) : String :=
  match (teamCodeMapping.find? (fun p => p.1 == team)).map (fun p => p.2) with
  | some c => c
  | none => team

/-- Truthy `game_id` of a schedule row (`if game_id and ...`). -/
def gidOpt (g : ScheduleRow) : Option String :=
  if g.game_id == "" then none else some g.game_id

/-- The dedup loop of `_find_daily_games_via_sql`: keep a row only when
its `game_id` is truthy and not yet seen. -/
def dedupGo (seen : List String) : List ScheduleRow → List ScheduleRow
  | [] => []
  | g :: rest =>
    match gidOpt g with
    | some gid =>
      if seen.contains gid then dedupGo seen rest
      else g :: dedupGo (gid :: seen) rest
    | none => dedupGo seen rest

/-- Deduplicate merged home/away results by `game_id`. -/
def dedupByGameId (gs : List ScheduleRow) : List ScheduleRow := dedupGo [] gs

/-- The date-resolution chain of `_find_daily_games_via_sql`: explicit
date, then relative date, then the most recent scheduled date. -/
def resolveDailyDate (now : Date) (store : List ScheduleRow) (question : String) :
    Option String :=
  match extractDateFromQuestion now.y question with
  | some d => some d
  | none =>
    match extractRelativeDate now question with
    | some d => some d
    | none =>
      ((sortStable (fun a b => strGe a.game_date b.game_date) store).head?).map
        (fun g => g.game_date)

/-- Model of `RAGTextToSQL._find_daily_games_via_sql`: all games of the
resolved date; when a team is named, the home and away query results are
merged and deduplicated by `game_id`. -/
def findDailyGamesViaSql (now : Date) (store : List ScheduleRow) (question : String) :
    List ScheduleRow :=
  match resolveDailyDate now store question with
  | none => []
  | some d0 =>
    let d := if d0.length == 8 then dashifyCompact d0 else d0
    match extractTeamFromQuestion question with
    | some t =>
      let code := teamCodeOf t
      let homeGames :=
        sortStable schedTimeLe
          (store.filter (fun g => g.game_date == d && g.home_team_code == code))
      let awayGames :=
        sortStable schedTimeLe
          (store.filter (fun g => g.game_date == d && g.away_team_code == code))
      dedupByGameId (homeGames ++ awayGames)
    | none => sortStable schedTimeLe (store.filter (fun g => g.game_date == d))

/-! ## The batch analysis handler (`_handle_daily_games_analysis`) -/

/-- The record payload fetched per game: whether `result.recordData` is
present (the code's "진행완료" test) and whether the analysis produced
an `"error"` key. -/
structure GameRecord where
  hasRecordData : Bool
  analysisHasError : Bool
deriving DecidableEq

/-- The external game-record collaborator: `fetchRecord` models
`game_record_service.get_game_record` (with `.error` standing for any
exception raised inside the per-game `try` block, and `.ok none` for a
missing payload), and `renderSummary` models
`analyze_game_record` + `generate_game_summary` on a successful record. -/
structure GameEnv where
  fetchRecord : String → Except Unit (Option GameRecord)
  renderSummary : GameRecord → String

/-- `YYYY-MM-DD` to `YYYY년 MM월 DD일`, as the summary builders format
dates of length at least 10. -/
def koreanDate (d : String) : String :=
  if 10 ≤ d.length then
    String.mk (d.data.take 4) ++ "년 " ++ String.mk ((d.data.drop 5).take 2)
      ++ "월 " ++ String.mk ((d.data.drop 8).take 2) ++ "일"
  else d

/-- Model of `RAGTextToSQL._generate_basic_game_summary`: the degraded
schedule-only summary built from the row alone, by `statusCode`. -/
def generateBasicGameSummary (g : ScheduleRow) : String :=
  let head :=
    "📅 " ++ koreanDate g.game_date ++ " " ++ g.stadium ++ "에서 열린 "
      ++ g.away_team_name ++ " vs " ++ g.home_team_name ++ " 경기\n"
  if g.statusCode == "0" then
    head
      ++ (if g.time == "" then "" else "⏰ 경기 시간: " ++ g.time ++ "\n")
      ++ "📋 경기가 예정되어 있습니다.\n"
      ++ "🏟️ 경기장: " ++ g.stadium ++ "\n"
      ++ "⚾ " ++ g.away_team_name ++ " vs " ++ g.home_team_name ++ "의 경기를 기대해주세요!"
  else if g.statusCode == "2" then
    head ++ "🔥 현재 경기가 진행 중입니다!\n"
      ++ (if 0 < g.home_team_score || 0 < g.away_team_score then
            "📊 현재 점수: " ++ g.away_team_name ++ " " ++ toString g.away_team_score
              ++ " - " ++ toString g.home_team_score ++ " " ++ g.home_team_name ++ "\n"
          else "")
      ++ "⚾ 실시간 경기 상황을 확인해보세요!"
  else if g.statusCode == "4" then
    (if g.winner == "HOME" then
      head ++ "🏆 " ++ g.home_team_name ++ " " ++ toString g.home_team_score
        ++ " - " ++ toString g.away_team_score ++ " " ++ g.away_team_name ++ "로 승리"
    else if g.winner == "AWAY" then
      head ++ "🏆 " ++ g.away_team_name ++ " " ++ toString g.away_team_score
        ++ " - " ++ toString g.home_team_score ++ " " ++ g.home_team_name ++ "로 승리"
    else
      head ++ "🏆 " ++ g.away_team_name ++ " " ++ toString g.away_team_score
        ++ " - " ++ toString g.home_team_score ++ " " ++ g.home_team_name)
      ++ "\n⚾ 경기 상태: 종료"
  else
    head
      ++ (if 0 < g.home_team_score || 0 < g.away_team_score then
            "📊 점수: " ++ g.away_team_name ++ " " ++ toString g.away_team_score
              ++ " - " ++ toString g.home_team_score ++ " " ++ g.home_team_name ++ "\n"
          else "")
      ++ "📋 경기 정보를 확인해주세요. (상태코드: " ++ g.statusCode ++ ")"

/-- The per-game body of the batch loop (the contents of the `try`
block): an exception, a missing payload, missing `recordData`, or an
analysis error all degrade to the basic schedule-only summary. -/
def resolveGame (env : GameEnv) (gid : String) (g : ScheduleRow) : String :=
  match env.fetchRecord gid with
  | .error _ => generateBasicGameSummary g
  | .ok none => generateBasicGameSummary g
  | .ok (some rec) =>
    if rec.hasRecordData then
      if rec.analysisHasError then generateBasicGameSummary g
      else env.renderSummary rec
    else generateBasicGameSummary g

/-- The accumulator loop over the day's games: rows without a truthy
`game_id` are skipped (`continue`), every other game contributes exactly
one summary. -/
def batchLoop (env : GameEnv) : List ScheduleRow → List String → List String
  | [], acc => acc
  | g :: rest, acc =>
    match gidOpt g with
    | none => batchLoop env rest acc
    | some gid => batchLoop env rest (acc ++ [resolveGame env gid g])

/-- Numbered per-game sections of `_generate_daily_summary`. -/
def joinNumbered : Nat → List String → String
  | _, [] => ""
  | i, s :: rest => "🏟️ 경기 " ++ toString i ++ ":\n" ++ s ++ "\n\n" ++ joinNumbered (i + 1) rest

/-- Model of `RAGTextToSQL._generate_daily_summary`. -/
def generateDailySummary (games : List ScheduleRow) (summaries : List String) : String :=
  let firstDate :=
    match games.head? with
    | some g => g.game_date
    | none => ""
  let homeWins := (games.filter (fun g => g.winner == "HOME")).length
  let awayWins := (games.filter (fun g => g.winner == "AWAY")).length
  "📅 " ++ koreanDate firstDate ++ " KBO 경기 결과 (" ++ toString games.length ++ "경기)\n"
    ++ String.mk (List.replicate 50 '=') ++ "\n\n"
    ++ joinNumbered 1 summaries
    ++ "📊 경기 결과 요약:\n"
    ++ "   홈팀 승리: " ++ toString homeWins ++ "경기\n"
    ++ "   원정팀 승리: " ++ toString awayWins ++ "경기\n"

/-- Model of `RAGTextToSQL._handle_daily_games_analysis`, starting from
the already-fetched list of the day's games. -/
def handleDailyGamesAnalysis (env : GameEnv) (games : List ScheduleRow) : String :=
  if games.isEmpty then "해당 날짜의 경기 정보를 찾을 수 없습니다."
  else
    let summaries := batchLoop env games []
    if summaries.isEmpty then "경기 분석 중 오류가 발생했습니다."
    else generateDailySummary games summaries

/-- The specification-side description of the batch: each game with a
truthy id is resolved independently of every other game. -/
def perGameSummaries (env : GameEnv) (games : List ScheduleRow) : List String :=
  games.filterMap (fun g => (gidOpt g).map (fun gid => resolveGame env gid g))

/-! ## Concrete fixtures used by the instance theorems -/

/-- A batting-average leaderboard query over a named team. -/
def teamHraSql : String :=
  "SELECT player_name, hra FROM player_season_stats WHERE team = \"한화\" ORDER BY hra DESC LIMIT 5"

/-- A 2025 season-stats row for a team with 128 games whose `ab` sits
exactly at the truncated threshold `int(128 * 3.1) = 396`. -/
def borderlineRow : Row :=
  [("player_name", .vStr "문현빈"), ("team", .vStr "한화"), ("gyear", .vStr "2025"),
   ("gamenum", .vInt 128), ("hra", .vInt 302), ("ab", .vInt 396)]

/-- A one-row stats store whose team-games map is `{한화: 128}`. -/
def borderlineStore : List Row := [borderlineRow]

/-- A batting-average query with `ORDER BY` but no `LIMIT`. -/
def orderOnlyHraSql : String :=
  "SELECT player_name, hra FROM player_season_stats ORDER BY hra DESC"

/-- A store for the order-only query (games count 128, league average). -/
def orderOnlyStore : List Row :=
  [[("player_name", .vStr "문현빈"), ("team", .vStr "한화"), ("gyear", .vStr "2025"),
    ("gamenum", .vInt 128), ("hra", .vInt 302), ("ab", .vInt 400)]]

/-- A batting-average leaderboard with both `ORDER BY` and `LIMIT`. -/
def clientPathSql : String :=
  "SELECT player_name, hra FROM player_season_stats ORDER BY hra DESC LIMIT 2"

/-- Three qualified batters of a 10-game season (threshold 31). -/
def clientPathStore : List Row :=
  [[("player_name", .vStr "선수일"), ("team", .vStr "한화"), ("gyear", .vStr "2025"),
    ("gamenum", .vInt 10), ("hra", .vInt 280), ("ab", .vInt 40)],
   [("player_name", .vStr "선수이"), ("team", .vStr "한화"), ("gyear", .vStr "2025"),
    ("gamenum", .vInt 10), ("hra", .vInt 330), ("ab", .vInt 50)],
   [("player_name", .vStr "선수삼"), ("team", .vStr "한화"), ("gyear", .vStr "2025"),
    ("gamenum", .vInt 10), ("hra", .vInt 305), ("ab", .vInt 45)]]

/-- An environment with no data at all. -/
def emptyEnv : Env := ⟨[], [], [], fun _ => none⟩

/-- A scheduled 한화 home game on 2025-09-11. -/
def hanwhaSep11Game : ScheduleRow :=
  { game_id := "20250911HHLG02025", game_date := "2025-09-11",
    game_date_time := "2025-09-11T18:30:00", home_team_code := "HH",
    away_team_code := "LG", home_team_name := "한화", away_team_name := "LG",
    stadium := "대전", statusCode := "0", winner := "", time := "18:30",
    home_team_score := 0, away_team_score := 0 }

/-- An environment whose schedule holds just that game. -/
def hanwhaSep11Env : Env := ⟨[], [hanwhaSep11Game], [], fun _ => none⟩

/-- A schedule query with a `한화` condition and a `CURRENT_DATE` lower
bound, whose result depends on the clock. -/
def currentDateSql : String :=
  "SELECT * FROM game_schedule WHERE home_team_name = \"한화\" AND game_date::date >= CURRENT_DATE"

/-- A 한화 home game on 2025-09-10 (one side of a duplicated fixture). -/
def dupHomeGame : ScheduleRow :=
  { game_id := "20250910HHLG0", game_date := "2025-09-10",
    game_date_time := "2025-09-10T18:30:00", home_team_code := "HH",
    away_team_code := "LG", home_team_name := "한화", away_team_name := "LG",
    stadium := "대전", statusCode := "0", winner := "", time := "18:30",
    home_team_score := 0, away_team_score := 0 }

/-- A second row carrying the same `game_id` with 한화 on the away side,
so the home and away queries both return an entry with that id. -/
def dupAwayGame : ScheduleRow :=
  { game_id := "20250910HHLG0", game_date := "2025-09-10",
    game_date_time := "2025-09-10T18:30:00", home_team_code := "LG",
    away_team_code := "HH", home_team_name := "LG", away_team_name := "한화",
    stadium := "대전", statusCode := "0", winner := "", time := "18:30",
    home_team_score := 0, away_team_score := 0 }

/-- A game-record collaborator that fails on every fetch. -/
def failingGameEnv : GameEnv := ⟨fun _ => .error (), fun _ => ""⟩

/-- An SQL text with a quoted player-name equality condition. -/
def playerEqSql : String :=
  "SELECT * FROM player_season_stats WHERE player_name = \"김현수\""

/-! ## General lemmas about the execution model -/

theorem mem_of_mem_insertLe {α : Type} {le : α → α → Bool} {a r : α} :
    ∀ {l : List α}, r ∈ insertLe le a l → r = a ∨ r ∈ l := by
  intro l
  induction l with
  | nil =>
    intro h
    simp [insertLe] at h
    exact Or.inl h
  | cons b bs ih =>
    intro h
    simp only [insertLe] at h
    by_cases hc : le b a = true
    · rw [if_pos hc] at h
      rcases List.mem_cons.mp h with h1 | h2
      · exact Or.inr (by simp [h1])
      · rcases ih h2 with h3 | h4
        · exact Or.inl h3
        · exact Or.inr (List.mem_cons_of_mem _ h4)
    · rw [if_neg hc] at h
      rcases List.mem_cons.mp h with h1 | h2
      · exact Or.inl h1
      · exact Or.inr h2

theorem mem_of_mem_sortStable {α : Type} {le : α → α → Bool} {r : α} {l : List α}
    (h : r ∈ sortStable le l) : r ∈ l := by
  have H : ∀ (l acc : List α),
      r ∈ l.foldl (fun acc a => insertLe le a acc) acc → r ∈ acc ∨ r ∈ l := by
    intro l
    induction l with
    | nil => intro acc h; exact Or.inl h
    | cons a as ih =>
      intro acc h
      rcases ih (insertLe le a acc) h with h1 | h2
      · rcases mem_of_mem_insertLe h1 with h3 | h4
        · exact Or.inr (by simp [h3])
        · exact Or.inl h4
      · exact Or.inr (List.mem_cons_of_mem _ h2)
  rcases H l [] (by simpa [sortStable] using h) with h1 | h2
  · simp at h1
  · exact h2

theorem mem_of_mem_rowsOfPlan {p : SortLimitPlan} {filtered : List Row} {r : Row}
    (h : r ∈ rowsOfPlan p filtered) : r ∈ filtered := by
  cases p with
  | clientSortLimit c d n =>
    exact mem_of_mem_sortStable (List.mem_of_mem_take h)
  | serverOrder c d => exact mem_of_mem_sortStable h
  | serverLimit n => exact List.mem_of_mem_take h
  | noSortLimit => exact h

theorem filterMatches_of_mem_applyFilters {store : List Row} {fs : List Filter} {r : Row}
    (h : r ∈ applyFilters store fs) : ∀ f ∈ fs, filterMatches r f = true := by
  intro f hf
  have h2 := (List.mem_filter.mp h).2
  exact List.all_eq_true.mp h2 f hf

theorem notNull_of_filterMatches {r : Row} {c : String}
    (h : filterMatches r (.notNullF c) = true) : valOf r c ≠ Value.vNull := by
  simp [filterMatches] at h
  intro hv
  rw [hv] at h
  simp at h

theorem gte_of_filterMatches {r : Row} {c : String} {n : Int}
    (h : filterMatches r (.gteF c n) = true) :
    ∃ a, valOf r c = Value.vInt a ∧ n ≤ a := by
  simp only [filterMatches] at h
  cases hv : valOf r c with
  | vNull => rw [hv] at h; simp at h
  | vInt a => exact ⟨a, rfl, by rw [hv] at h; simpa using h⟩
  | vStr s => rw [hv] at h; simp at h

theorem qualFilters_eq_of_requiredPa {store : List Row} {sql : String} {pa : Int}
    (h : requiredPa store sql = some pa) :
    qualFilters store sql = .ok [.gteF "ab" pa] := by
  unfold requiredPa at h
  unfold qualFilters
  cases hc : condGet (extractWhereConditions sql) "team" with
  | some t =>
    simp only [hc] at h ⊢
    cases hg : tgLookup (getTeamGamesCount store) t with
    | some g =>
      simp only [hg] at h ⊢
      simp at h
      rw [h]
    | none => simp only [hg] at h; simp at h
  | none =>
    simp only [hc] at h ⊢
    cases htg : getTeamGamesCount store with
    | nil => simp only [htg] at h; simp at h
    | cons x xs =>
      simp only [htg] at h ⊢
      simp at h
      rw [h]

theorem derivedOutcome_eq {store : List Row} {sql question : String} {pa : Int}
    (h1 : hraCondition sql question = true)
    (h2 : playerTypeInB sql = true)
    (h3 : requiredPa store sql = some pa) :
    derivedOutcome store sql question =
      .ok (typeFilters sql ++ hraFilters sql question ++ bothFilters sql
            ++ [.gteF "ab" pa]) := by
  unfold derivedOutcome
  rw [h1, h2]
  simp only [Bool.and_self, if_true]
  rw [qualFilters_eq_of_requiredPa h3]
  rfl

/-- Any keyword match survives enlarging the keyword list. -/
theorem anyKeyword_mono {s : String} {k1 k2 : List String}
    (hsub : ∀ x ∈ k1, x ∈ k2) (h : anyKeyword s k1 = true) :
    anyKeyword s k2 = true := by
  unfold anyKeyword at h ⊢
  rcases List.any_eq_true.mp h with ⟨x, hx, hc⟩
  exact List.any_eq_true.mpr ⟨x, hsub x hx, hc⟩

/-- The batch loop is the accumulator plus the independent per-game
summaries. -/
theorem batchLoop_eq (env : GameEnv) :
    ∀ (games : List ScheduleRow) (acc : List String),
      batchLoop env games acc = acc ++ perGameSummaries env games := by
  intro games
  induction games with
  | nil => intro acc; simp [batchLoop, perGameSummaries]
  | cons g rest ih =>
    intro acc
    simp only [batchLoop, perGameSummaries]
    cases hg : gidOpt g with
    | none => simpa [perGameSummaries, List.filterMap_cons, hg] using ih acc
    | some gid =>
      simp only [List.filterMap_cons, hg, Option.map_some]
      rw [ih (acc ++ [resolveGame env gid g])]
      simp [perGameSummaries]

theorem perGameSummaries_ne_nil (env : GameEnv) {games : List ScheduleRow}
    (h : games.any (fun g => (gidOpt g).isSome) = true) :
    perGameSummaries env games ≠ [] := by
  rcases List.any_eq_true.mp h with ⟨g, hg, hgid⟩
  rcases Option.isSome_iff_exists.mp hgid with ⟨gid, hgid2⟩
  intro hnil
  have hm : resolveGame env gid g ∈ perGameSummaries env games := by
    unfold perGameSummaries
    exact List.mem_filterMap.mpr ⟨g, hg, by rw [hgid2]; rfl⟩
  rw [hnil] at hm
  simp at hm

theorem dedupGo_nodup :
    ∀ (l : List ScheduleRow) (seen : List String),
      ((dedupGo seen l).map gidOpt).Nodup ∧
        ∀ r ∈ dedupGo seen l, ∃ gid, gidOpt r = some gid ∧ seen.contains gid = false := by
  intro l
  induction l with
  | nil => intro seen; simp [dedupGo]
  | cons g rest ih =>
    intro seen
    cases hg : gidOpt g with
    | none => simpa only [dedupGo, hg] using ih seen
    | some gid =>
      by_cases hseen : seen.contains gid = true
      · simpa only [dedupGo, hg, hseen, if_true] using ih seen
      · have hseen2 : seen.contains gid = false := by
          simpa using hseen
        simp only [dedupGo, hg, hseen2, Bool.false_eq_true, if_false]
        constructor
        · refine List.nodup_cons.mpr ⟨?_, (ih (gid :: seen)).1⟩
          intro hmem
          rcases List.mem_map.mp hmem with ⟨r, hr, hgr⟩
          rcases (ih (gid :: seen)).2 r hr with ⟨gid2, hg2, hnotin⟩
          rw [hg2] at hgr
          have hgeq : gid2 = gid := by
            rw [hg] at hgr
            exact Option.some.inj hgr
          rw [hgeq] at hnotin
          simp [List.contains_cons] at hnotin
        · intro r hr
          rcases List.mem_cons.mp hr with h1 | h2
          · exact ⟨gid, by rw [h1, hg], hseen2⟩
          · rcases (ih (gid :: seen)).2 r h2 with ⟨gid2, hg2, hnotin⟩
            refine ⟨gid2, hg2, ?_⟩
            simp [List.contains_cons] at hnotin
            simp [hnotin.2]

/-- The merged home/away results, deduplicated, carry pairwise distinct
game ids. -/
theorem dedupByGameId_nodup (gs : List ScheduleRow) :
    ((dedupByGameId gs).map gidOpt).Nodup :=
  (dedupGo_nodup gs []).1

/-! ## Claim theorems -/

/-- C1, counterexample: the claim asserts that every row returned by a
batting-average leaderboard query has plate appearances at least
`ceil(3.1 * team_games)`.  For the 한화 store with 128 team games the
code filters with `int(128 * 3.1) = 396`, so the borderline row with
`ab = 396` is returned even though `ceil(3.1 * 128) = 397` — the claim's
ceiling bound fails on it. -/
theorem c1_ceil_threshold_counterexample :
    hraCondition teamHraSql "" = true ∧
    playerTypeInB teamHraSql = true ∧
    getTeamGamesCount borderlineStore = [("한화", 128)] ∧
    requiredPa borderlineStore teamHraSql = some 396 ∧
    qualifiedPaCeil 128 = 397 ∧
    ((executeDirectSql borderlineStore teamHraSql "").1.all
      (fun r => abAtLeast r (qualifiedPaCeil 128))) = false := by
  decide

/-- C1, amended: every row returned by a batting-average leaderboard
query on the direct-SQL execution path has a non-null batting average
and plate appearances at least the truncated threshold
`int(3.1 * team_games)` — team-specific, or computed from the league
average of games played when no team is named (`requiredPa`). -/
theorem c1_qualified_batting_rows_floor_threshold (store : List Row)
    (sql question : String) (pa : Int)
    (h1 : hraCondition sql question = true)
    (h2 : playerTypeInB sql = true)
    (h3 : requiredPa store sql = some pa) :
    ∀ r ∈ (executeDirectSql store sql question).1,
      valOf r "hra" ≠ Value.vNull ∧ ∃ a, valOf r "ab" = Value.vInt a ∧ pa ≤ a := by
  intro r hr
  have hder := derivedOutcome_eq h1 h2 h3
  have hrows : r ∈ applyFilters store
      (eqFiltersOf sql ++ (typeFilters sql ++ hraFilters sql question ++ bothFilters sql
        ++ [.gteF "ab" pa])) := by
    unfold executeDirectSql at hr
    rw [hder] at hr
    simp only at hr
    unfold directRows at hr
    rw [hder] at hr
    exact mem_of_mem_rowsOfPlan hr
  have hall := filterMatches_of_mem_applyFilters hrows
  constructor
  · apply notNull_of_filterMatches
    apply hall
    have hm : Filter.notNullF "hra" ∈ hraFilters sql question := by
      unfold hraFilters
      rw [h1]
      simp
    simp [List.mem_append, hm]
  · apply gte_of_filterMatches (c := "ab") (n := pa)
    apply hall
    simp [List.mem_append]

/-- C1, witness: the amended theorem applied to the borderline store,
where the computed threshold is 396 and the returned row satisfies it. -/
theorem c1_qualified_batting_rows_floor_threshold_witness :
    (hraCondition teamHraSql "" = true ∧ playerTypeInB teamHraSql = true ∧
      requiredPa borderlineStore teamHraSql = some 396) ∧
    ∀ r ∈ (executeDirectSql borderlineStore teamHraSql "").1,
      valOf r "hra" ≠ Value.vNull ∧ ∃ a, valOf r "ab" = Value.vInt a ∧ (396 : Int) ≤ a :=
  ⟨⟨by decide, by decide, by decide⟩,
   c1_qualified_batting_rows_floor_threshold borderlineStore teamHraSql "" 396
     (by decide) (by decide) (by decide)⟩

/-- C2, counterexample: `SELECT x game_schedule` is not a single
well-formed `SELECT ... ;` statement, yet `execute_sql` does not fail —
it dispatches to the schedule path and performs a remote-store call, so
"zero remote calls on any malformed input" is false (and no
`CompileError` exists anywhere in the pipeline: malformed input yields
an empty list, not an error value). -/
theorem c2_malformed_select_triggers_remote_call :
    specSingleSelectStatement "SELECT x game_schedule" = false ∧
    (executeSql emptyEnv ⟨2025, 9, 10⟩ "SELECT x game_schedule" "").2 ≠ [] := by
  decide

/-- C2, amended: the only compile-time gate the code has is the `SELECT`
prefix test; for every input that does not start with `SELECT`
(case-insensitively), `execute_sql` returns the empty list and performs
zero remote-store calls.  Text that starts with `SELECT` but is
otherwise malformed may still trigger remote calls. -/
theorem c2_non_select_no_remote_calls (env : Env) (now : Date) (sql question : String)
    (h : strStartsWith (upperStr sql) "SELECT" = false) :
    executeSql env now sql question = (.rows [], []) := by
  unfold executeSql
  simp [h]

/-- C2, witness: an `UPDATE` statement is rejected by the gate with an
empty result and no remote calls. -/
theorem c2_non_select_no_remote_calls_witness :
    executeSql emptyEnv ⟨2025, 9, 10⟩ "UPDATE player_season_stats SET hr = 0" ""
      = (.rows [], []) :=
  c2_non_select_no_remote_calls emptyEnv ⟨2025, 9, 10⟩
    "UPDATE player_season_stats SET hr = 0" "" (by decide)

/-- C3, counterexample: a batting-average query with `ORDER BY` but no
`LIMIT` carries non-empty client-relevant post-filters (null-average
exclusion and the qualified threshold), yet the sort is delegated to the
remote store (`serverOrder`), contradicting "whenever a post-filter is
present, sort and limit are applied client-side, never server-side". -/
theorem c3_postfilter_server_sort_counterexample :
    derivedOutcome orderOnlyStore orderOnlyHraSql "" =
      .ok [.notNullF "hra", .notNullF "hra", .gteF "ab" 396] ∧
    planOf orderOnlyHraSql = SortLimitPlan.serverOrder "hra" true := by
  decide

/-- C3, amended: the locality decision ignores the post-filters
entirely — sort and limit are applied client-side exactly when the SQL
has both an `ORDER BY col ASC|DESC` clause and a `LIMIT n` clause; a
lone `ORDER BY` or a lone `LIMIT` is delegated to the remote store. -/
theorem c3_client_locality_iff_order_and_limit (sql : String) :
    (∃ c d n, planOf sql = SortLimitPlan.clientSortLimit c d n) ↔
      (orderByDir sql).isSome ∧ (limitOf sql).isSome := by
  unfold planOf
  cases ho : orderByDir sql with
  | some p =>
    obtain ⟨c, d⟩ := p
    cases hl : limitOf sql with
    | some n => simp
    | none => simp
  | none =>
    cases hl : limitOf sql with
    | some n => simp
    | none => simp

/-- C4, counterexample: `내일 일정 누가 이길까` contains prediction
keywords (`누가`, `이길까`, `이길`) and the schedule keyword `일정`, yet
it is classified `DailySchedule`, because the daily-schedule check runs
before the prediction check and no team is named. -/
theorem c4_prediction_schedule_classified_daily_schedule :
    isGamePredictionQuestion "내일 일정 누가 이길까" = true ∧
    anyKeyword (lowerStr "내일 일정 누가 이길까") dailyScheduleKeywords = true ∧
    classifyQuestion (fun _ => false) "내일 일정 누가 이길까" = Category.dailySchedule := by
  decide

/-- C4, amended: for a question containing a schedule keyword together
with one of the core prediction keywords (the prediction-exclusion
list), the classifier yields `DailySchedule` exactly when the
daily-schedule rule fires (no team named, `다음 경기` absent) — that
rule runs first — and `GamePrediction` otherwise. -/
theorem c4_prediction_schedule_precedence (rag : String → Bool) (q : String)
    (hp : anyKeyword (lowerStr q) predictionExclusionKeywords = true)
    (hs : anyKeyword (lowerStr q) dailyScheduleKeywords = true) :
    classifyQuestion rag q =
      (if isDailyScheduleQuestion q then Category.dailySchedule
       else Category.gamePrediction) := by
  have hdg : isDailyGamesQuestion q = false := by
    unfold isDailyGamesQuestion
    have h2 : anyKeyword (lowerStr q) dailyGamesScheduleKeywords = true :=
      anyKeyword_mono (by decide) hs
    simp [h2]
  have hfi : isFutureGameInfoQuestion q = false := by
    unfold isFutureGameInfoQuestion
    simp [hp]
  have hpred : isGamePredictionQuestion q = true := by
    unfold isGamePredictionQuestion
    exact anyKeyword_mono (by decide) hp
  unfold classifyQuestion
  by_cases hds : isDailyScheduleQuestion q = true
  · rw [if_pos hds, if_pos hds]
  · have hds2 : isDailyScheduleQuestion q = false := by simpa using hds
    simp [hds2, hdg, hfi, hpred]

/-- C4, witness: with a team named, the daily-schedule rule does not
fire and the same keyword mix classifies as `GamePrediction`. -/
theorem c4_prediction_schedule_precedence_witness :
    classifyQuestion (fun _ => false) "한화 일정 누가 이길까" = Category.gamePrediction :=
  c4_prediction_schedule_precedence (fun _ => false) "한화 일정 누가 이길까"
    (by decide) (by decide)

/-- C5 (confirmed): no element of a player-name list extracted from an
SQL `IN (...)` or equality clause equals a known canonical team code
case-insensitively — the extraction ends in an explicit stop-list filter
on the uppercased value. -/
theorem c5_player_names_exclude_team_codes (sql name : String)
    (h : name ∈ extractPlayerNamesFromSql sql) :
    teamCodes.contains (upperStr name) = false := by
  simp only [extractPlayerNamesFromSql] at h
  have h2 := (List.mem_filter.mp h).2
  simpa using h2

/-- C5, witness: a quoted Korean player name is extracted and is not a
team code. -/
theorem c5_player_names_exclude_team_codes_witness :
    ("김현수" ∈ extractPlayerNamesFromSql playerEqSql) ∧
    teamCodes.contains (upperStr "김현수") = false :=
  ⟨by decide, c5_player_names_exclude_team_codes playerEqSql "김현수" (by decide)⟩

/-- C6, counterexample: the claim asserts the explicit `YYYY-MM-DD` date
always wins over a co-occurring `내일`.  On the `_extract_target_date`
path the relative-term chain runs first, so `내일 2025-09-25 경기
알려줘` with `now = 2025-09-10` resolves to `2025-09-11`, not to the
explicit `2025-09-25` (the `_find_game_info_via_sql` path does resolve
to the explicit date). -/
theorem c6_target_date_relative_wins_counterexample :
    containsSub "내일 2025-09-25 경기 알려줘" "2025-09-25" = true ∧
    containsSub "내일 2025-09-25 경기 알려줘" "내일" = true ∧
    extractTargetDate ⟨2025, 9, 10⟩ "내일 2025-09-25 경기 알려줘" = some "2025-09-11" ∧
    findGameInfoDate ⟨2025, 9, 10⟩ "내일 2025-09-25 경기 알려줘" = some "20250925" := by
  decide

/-- C6, amended: on the game-analysis path (`_find_game_info_via_sql`)
the explicit patterns are tried first, so an extracted explicit date
always wins; on the `_extract_target_date` path a `내일` in the question
always wins and resolves to `now + 1 day`; and a bare `내일` (no
`어제`/`오늘` before it in the chain) resolves to `now + 1 day` in the
relative extractor as well. -/
theorem c6_date_extraction_precedence (now : Date) (q : String) :
    (∀ d8, extractDateFromQuestion now.y q = some d8 → findGameInfoDate now q = some d8)
    ∧ (containsSub (lowerStr q) "내일" = true →
        extractTargetDate now q = some (fmtIso (nextDay now)))
    ∧ (containsSub (lowerStr q) "어제" = false →
       containsSub (lowerStr q) "오늘" = false →
       containsSub (lowerStr q) "내일" = true →
        extractRelativeDate now q = some (fmtIso (nextDay now))) := by
  refine ⟨?_, ?_, ?_⟩
  · intro d8 h
    unfold findGameInfoDate
    rw [h]
  · intro h
    unfold extractTargetDate
    simp [h]
  · intro h1 h2 h3
    unfold extractRelativeDate
    simp [h1, h2, h3]

/-- C6, witness: the three parts of the amended statement at concrete
inputs with `now = 2025-09-10`. -/
theorem c6_date_extraction_precedence_witness :
    findGameInfoDate ⟨2025, 9, 10⟩ "2025-09-25 경기 알려줘" = some "20250925" ∧
    extractTargetDate ⟨2025, 9, 10⟩ "내일 경기 알려줘" = some "2025-09-11" ∧
    extractRelativeDate ⟨2025, 9, 10⟩ "내일 경기 알려줘" = some "2025-09-11" :=
  ⟨(c6_date_extraction_precedence ⟨2025, 9, 10⟩ "2025-09-25 경기 알려줘").1 "20250925"
     (by decide),
   (c6_date_extraction_precedence ⟨2025, 9, 10⟩ "내일 경기 알려줘").2.1 (by decide),
   (c6_date_extraction_precedence ⟨2025, 9, 10⟩ "내일 경기 알려줘").2.2
     (by decide) (by decide) (by decide)⟩

/-- C7 (confirmed): on the client-side locality path (both `ORDER BY`
and `LIMIT` present), the result equals the filtered row set stably
sorted by the compiled column in the compiled direction — a null (or
missing) sort key reading as zero via `sortKey` — then sliced to the
first `limit` rows. -/
theorem c7_client_path_sorted_sliced (store : List Row) (sql question : String)
    (col : String) (desc : Bool) (n : Nat) (extra : List Filter)
    (ho : orderByDir sql = some (col, desc))
    (hl : limitOf sql = some n)
    (hf : derivedOutcome store sql question = .ok extra) :
    (executeDirectSql store sql question).1 =
      (sortStable (rowLe col desc)
        (applyFilters store (eqFiltersOf sql ++ extra))).take n := by
  simp only [executeDirectSql, directRows, hf, planOf, rowsOfPlan, ho, hl]

/-- C7, witness: a three-row store sorted descending by `hra` and
sliced to two rows. -/
theorem c7_client_path_sorted_sliced_witness :
    (orderByDir clientPathSql = some ("hra", true) ∧ limitOf clientPathSql = some 2 ∧
      derivedOutcome clientPathStore clientPathSql "" =
        .ok [.notNullF "hra", .notNullF "hra", .gteF "ab" 31]) ∧
    (executeDirectSql clientPathStore clientPathSql "").1 =
      (sortStable (rowLe "hra" true)
        (applyFilters clientPathStore
          (eqFiltersOf clientPathSql
            ++ [.notNullF "hra", .notNullF "hra", .gteF "ab" 31]))).take 2 :=
  ⟨⟨by decide, by decide, by decide⟩,
   c7_client_path_sorted_sliced clientPathStore clientPathSql "" "hra" true 2
     [.notNullF "hra", .notNullF "hra", .gteF "ab" 31]
     (by decide) (by decide) (by decide)⟩

/-- C8 (confirmed): the `DailyResultsAnalysis` batch over a day's games
equals the per-game summaries computed independently for every game with
a truthy id (so a failure on one game cannot affect any other game or
abort the batch), and a game whose record fetch raises degrades to its
minimal schedule-only summary. -/
theorem c8_batch_failure_isolation (env : GameEnv) (games : List ScheduleRow)
    (h : games.any (fun g => (gidOpt g).isSome) = true) :
    handleDailyGamesAnalysis env games
        = generateDailySummary games (perGameSummaries env games)
    ∧ ∀ g ∈ games, ∀ gid, gidOpt g = some gid →
        env.fetchRecord gid = .error () →
        resolveGame env gid g = generateBasicGameSummary g := by
  constructor
  · have hne : games ≠ [] := by
      intro hnil
      rw [hnil] at h
      simp at h
    have hempty : games.isEmpty = false := by
      cases games with
      | nil => exact absurd rfl hne
      | cons a as => rfl
    unfold handleDailyGamesAnalysis
    simp only [hempty, Bool.false_eq_true, if_false]
    rw [batchLoop_eq env games []]
    simp only [List.nil_append]
    have hne2 := perGameSummaries_ne_nil env h
    have hempty2 : (perGameSummaries env games).isEmpty = false := by
      cases hpg : perGameSummaries env games with
      | nil => exact absurd hpg hne2
      | cons a as => rfl
    simp [hempty2]
  · intro g hg gid hgid hfetch
    unfold resolveGame
    rw [hfetch]

/-- C8, witness: with a record collaborator that fails on every game,
the one-game batch still completes and the game degrades to its basic
summary. -/
theorem c8_batch_failure_isolation_witness :
    ([dupHomeGame].any (fun g => (gidOpt g).isSome) = true) ∧
    handleDailyGamesAnalysis failingGameEnv [dupHomeGame]
      = generateDailySummary [dupHomeGame] (perGameSummaries failingGameEnv [dupHomeGame]) ∧
    resolveGame failingGameEnv "20250910HHLG0" dupHomeGame
      = generateBasicGameSummary dupHomeGame :=
  ⟨by decide,
   (c8_batch_failure_isolation failingGameEnv [dupHomeGame] (by decide)).1,
   (c8_batch_failure_isolation failingGameEnv [dupHomeGame] (by decide)).2 dupHomeGame
     (by simp) "20250910HHLG0" (by decide) rfl⟩

/-- C9, counterexample: the claim asserts two executions of the same
`(sql, question)` against an unchanged store yield identical ordered
results.  The schedule path compares `game_date` to the current date, so
the same query run on 2025-09-10 and on 2025-09-12 over the same store
returns different lists. -/
theorem c9_schedule_current_date_nondeterminism :
    (executeSql hanwhaSep11Env ⟨2025, 9, 10⟩ currentDateSql "").1
        = SqlOut.sched [hanwhaSep11Game] ∧
    (executeSql hanwhaSep11Env ⟨2025, 9, 12⟩ currentDateSql "").1 = SqlOut.sched [] ∧
    executeSql hanwhaSep11Env ⟨2025, 9, 10⟩ currentDateSql ""
      ≠ executeSql hanwhaSep11Env ⟨2025, 9, 12⟩ currentDateSql "" := by
  decide

/-- C9, amended: every query that does not mention `game_schedule`
(in particular the whole player-stats direct-SQL path) is independent of
the clock, so two executions against an unchanged store yield identical
ordered results; the schedule path filters on the current date and may
differ across days. -/
theorem c9_player_paths_clock_independent (env : Env) (now1 now2 : Date)
    (sql question : String)
    (h : containsSub (lowerStr sql) "game_schedule" = false) :
    executeSql env now1 sql question = executeSql env now2 sql question := by
  unfold executeSql
  simp [h]

/-- C9, witness: the batting-average leaderboard query executed under
two different clocks gives the same answer. -/
theorem c9_player_paths_clock_independent_witness :
    executeSql emptyEnv ⟨2025, 9, 10⟩ teamHraSql ""
      = executeSql emptyEnv ⟨2026, 1, 1⟩ teamHraSql "" :=
  c9_player_paths_clock_independent emptyEnv ⟨2025, 9, 10⟩ ⟨2026, 1, 1⟩ teamHraSql ""
    (by decide)

/-- C10 (confirmed): whenever a specific team is named in a daily-games
lookup, the merged home-side and away-side results are deduplicated by
`game_id`, so the returned list never contains two entries with the same
id. -/
theorem c10_daily_games_dedup_by_game_id (now : Date) (store : List ScheduleRow)
    (q : String) (h : (extractTeamFromQuestion q).isSome = true) :
    ((findDailyGamesViaSql now store q).map gidOpt).Nodup := by
  unfold findDailyGamesViaSql
  cases hd : resolveDailyDate now store q with
  | none => simp
  | some d0 =>
    rcases Option.isSome_iff_exists.mp h with ⟨t, ht⟩
    simp only [ht]
    exact dedupByGameId_nodup _

/-- C10, witness: a store holding two rows that share one `game_id`
(한화 at home in one and away in the other) yields a single entry with
pairwise-distinct ids. -/
theorem c10_daily_games_dedup_by_game_id_witness :
    ((extractTeamFromQuestion "오늘 한화 경기 일정 알려줘").isSome = true) ∧
    findDailyGamesViaSql ⟨2025, 9, 10⟩ [dupHomeGame, dupAwayGame] "오늘 한화 경기 일정 알려줘"
      = [dupHomeGame] ∧
    ((findDailyGamesViaSql ⟨2025, 9, 10⟩ [dupHomeGame, dupAwayGame]
        "오늘 한화 경기 일정 알려줘").map gidOpt).Nodup :=
  ⟨by decide, by decide,
   c10_daily_games_dedup_by_game_id ⟨2025, 9, 10⟩ [dupHomeGame, dupAwayGame]
     "오늘 한화 경기 일정 알려줘" (by decide)⟩

end HanwhaRag
